import Mathlib

/-!
# Verification of the ai-summary summarization engine

Shallow embedding of the summarization orchestration core of the
`ai-summary` repository: the map-reduce state machine
(`MapReduceService` in `src/ai-engine/summarization-algorithm`), the
algorithm selector and response post-processing in
`src/ai-engine/ai-engine.service.ts`, and the document/token data model.

Model calls are abstracted as functions (`ChatModel.invoke` returns
`Except String String`, a successful content string or an error
message); token counting is `ChatModel.getNumTokens : String → Nat`.
Functions of the langchain library that the service calls but whose
source is not part of this repository (`splitListOfDocs`,
`collapseDocs`, the JSON output parser, langgraph's recursion-limit
abort) are modelled from the specification's description and are marked
`Modelled from the spec:` in their doc comments.
-/

namespace AiSummary

/-- A langchain `Document`: a unit of source text plus an opaque
string-to-string metadata mapping. -/
structure Document where
  pageContent : String
  metadata : List (String × String) := []
deriving Repr, DecidableEq

/-- The pluggable chat-model interface (spec §6): `invoke` produces the
response content for a prompt or fails with an error message;
`getNumTokens` is the model's deterministic token counter. -/
structure ChatModel where
  invoke : String → Except String String
  getNumTokens : String → Nat

/-- Embeds `MapReduceService.lengthFunction` (stuff.service.ts lines 195-203):
token counts of all documents are computed via `llm.getNumTokens` on
each `pageContent` and reduced with `(sum, count) => sum + count`
starting from `0`. -/
def lengthFunction (llm : ChatModel) (documents : List Document) : Nat :=
  (documents.map fun doc => llm.getNumTokens doc.pageContent).foldl (· + ·) 0

/-- The two conditional-edge targets of the `shouldCollapse` decision. -/
inductive CollapseDecision where
  | collapseSummaries
  | generateFinalSummary
deriving Repr, DecidableEq

/-- Embeds `MapReduceService.shouldCollapse` (stuff.service.ts lines 211-219):
compare the summed token count of the current collapsed-summaries set
against `maxTokens`; strictly greater routes to `collapseSummaries`,
otherwise to `generateFinalSummary`. -/
def shouldCollapse (llm : ChatModel) (maxTokens : Nat)
    (collapsedSummaries : List Document) : CollapseDecision :=
  if lengthFunction llm collapsedSummaries > maxTokens then
    .collapseSummaries
  else
    .generateFinalSummary

/-- Embeds `MapReduceService._reduce` (stuff.service.ts lines 181-193): format
the reduce prompt over the input documents and invoke the model once.
The prompt template is abstracted as a function from the document group
to the formatted prompt string. -/
def reduceCall (llm : ChatModel) (reducePrompt : List Document → String)
    (input : List Document) : Except String String :=
  llm.invoke (reducePrompt input)

/-- Modelled from the spec: langchainjs `splitListOfDocs` (imported from
`langchain/chains/combine_documents/reduce`, not part of this
repository's sources). Prefix-greedy packing, §4.4 step 5: "add
documents to the current group until the next one would exceed budget,
then start a new group", preserving input order within and across
groups. `cur` is the (nonempty) group currently being filled. -/
def packDocs (lengthOf : List Document → Nat) (tokenMax : Nat) :
    List Document → List Document → List (List Document)
  | cur, [] => [cur]
  | cur, d :: rest =>
    if lengthOf (cur ++ [d]) > tokenMax then
      cur :: packDocs lengthOf tokenMax [d] rest
    else
      packDocs lengthOf tokenMax (cur ++ [d]) rest

/-- Modelled from the spec: entry point of the prefix-greedy packing;
an empty document list yields no groups. -/
def splitListOfDocs (lengthOf : List Document → Nat) (tokenMax : Nat) :
    List Document → List (List Document)
  | [] => []
  | d :: rest => packDocs lengthOf tokenMax [d] rest

/-- Modelled from the spec: langchainjs `collapseDocs` (not part of this
repository's sources), §4.4 step 5: "a group already at exactly one
document passes through unreduced (no self-reduction needed)"; a group
with more than one member is replaced by a single document whose content
is the output of one reduce model call over the group. -/
def collapseDocs (reduceFn : List Document → Except String String) :
    List Document → Except String Document
  | [d] => .ok d
  | docs => (reduceFn docs).map fun content => { pageContent := content }

/-- Embeds `MapReduceService.collapseSummaries` (stuff.service.ts lines
242-259): split the current collapsed-summaries set into groups with
`splitListOfDocs` under `maxTokens`, collapse each group with
`collapseDocs` around `_reduce`, and return the per-group results as the
new collapsed-summaries set. -/
def collapseSummaries (llm : ChatModel) (maxTokens : Nat)
    (reducePrompt : List Document → String)
    (collapsedSummaries : List Document) : Except String (List Document) :=
  (splitListOfDocs (lengthFunction llm) maxTokens collapsedSummaries).mapM
    (collapseDocs (reduceCall llm reducePrompt))

/-- Fatal errors of one map-reduce run (spec §7 taxonomy): a failed
model invocation (map, reduce or final call), the langgraph
recursion-limit abort, and the driver's
`throw new Error('Failed to generate final summary')`
(stuff.service.ts lines 174-176). -/
inductive MRError where
  | modelInvocation (msg : String)
  | recursionLimitExceeded
  | failedToGenerateFinalSummary
deriving Repr, DecidableEq

/-- The `recursionLimit: 10` configuration passed to `app.stream`
(stuff.service.ts lines 164-167). -/
def recursionLimit : Nat := 10

/-- The collapse loop of the compiled graph (stuff.service.ts lines
143-160): both `collectSummaries` and `collapseSummaries` route through
the conditional edge `shouldCollapse`, so after every collapse round the
decision is re-evaluated on the new collapsed-summaries set; the fuel
models the remaining `recursionLimit` budget for collapse rounds.
Modelled from the spec: exceeding the recursion limit makes langgraph
(not part of this repository's sources) abort the run with an error
rather than loop further. -/
def collapseLoop (llm : ChatModel) (maxTokens : Nat)
    (reducePrompt : List Document → String) :
    Nat → List Document → Except MRError (List Document)
  | 0, docs =>
    match shouldCollapse llm maxTokens docs with
    | .generateFinalSummary => .ok docs
    | .collapseSummaries => .error .recursionLimitExceeded
  | fuel + 1, docs =>
    match shouldCollapse llm maxTokens docs with
    | .generateFinalSummary => .ok docs
    | .collapseSummaries =>
      match collapseSummaries llm maxTokens reducePrompt docs with
      | .error msg => .error (.modelInvocation msg)
      | .ok next => collapseLoop llm maxTokens reducePrompt fuel next

/-- Embeds `MapReduceService.generateSummary` (stuff.service.ts lines 221-232):
one map model call per chunk, the map prompt formatted over the chunk's
content. -/
def generateSummary (llm : ChatModel) (mapPrompt : String → String)
    (content : String) : Except String String :=
  llm.invoke (mapPrompt content)

/-- Embeds `MapReduceService.collectSummaries` (stuff.service.ts lines
234-240): wrap every accumulated summary string into a fresh
`Document`. -/
def collectSummaries (summaries : List String) : List Document :=
  summaries.map fun summary => { pageContent := summary }

/-- The `summaries` channel reducer of the graph state
(stuff.service.ts lines 91-93): `(state, update) => state.concat(update)`. -/
def summariesReducer (state update : List String) : List String :=
  state ++ update

/-- One fanned-out `generateSummary` task's state update: a one-element
`summaries` list, merged by `summariesReducer`. -/
def generateSummaryUpdate (llm : ChatModel) (mapPrompt : String → String)
    (content : String) : Except String (List String) :=
  (generateSummary llm mapPrompt content).map fun s => [s]

/-- The `GenerateSummary` fan-out joined at `CollectSummaries`: the
tasks of `mapSummaries` (one `Send` per chunk content, stuff.service.ts
lines 205-209) complete in an unspecified order `completionOrder`; each
task's one-element update is folded into the append-only `summaries`
channel. A single failed task fails the whole phase. -/
def runMapPhase (llm : ChatModel) (mapPrompt : String → String)
    (completionOrder : List String) : Except String (List String) :=
  (completionOrder.mapM (generateSummaryUpdate llm mapPrompt)).map
    fun updates => updates.foldl summariesReducer []

/-- Embeds `MapReduceService.summarize` after splitting (stuff.service.ts lines
143-179) for a structured-output type `σ`: run the map fan-out over the
chunk contents, collect, loop collapse-while-over-budget under the
recursion limit, then issue the final model call and parse it.
Modelled from the spec: the JSON output parser (langchain, not part of
this repository's sources) yields `none` when the final call's content
does not parse into the fixed report shape; the driver then raises
`Failed to generate final summary` (the throw itself is in
stuff.service.ts lines 174-176). -/
def mapReduceSummarize {σ : Type} (llm : ChatModel)
    (mapPrompt : String → String)
    (reducePrompt finalPrompt : List Document → String)
    (parse : String → Option σ) (maxTokens limit : Nat)
    (contents : List String) : Except MRError σ :=
  match contents.mapM (generateSummary llm mapPrompt) with
  | .error msg => .error (.modelInvocation msg)
  | .ok summaries =>
    match collapseLoop llm maxTokens reducePrompt limit
        (collectSummaries summaries) with
    | .error e => .error e
    | .ok docs =>
      match llm.invoke (finalPrompt docs) with
      | .error msg => .error (.modelInvocation msg)
      | .ok content =>
        match parse content with
        | none => .error .failedToGenerateFinalSummary
        | some obj => .ok obj

/-- The instance fields of the `MapReduceService` singleton
(stuff.service.ts lines 100-106), parameterized by the structured-output
type of the JSON parser. -/
structure MRServiceFields (σ : Type) where
  llm : ChatModel
  mapPrompt : String → String
  reducePrompt : List Document → String
  finalPrompt : List Document → String
  parse : String → Option σ
  maxTokens : Nat

/-- Embeds `MapReduceService.initialize` (stuff.service.ts lines 108-121):
overwrite every instance field of the service with the current call's
arguments. -/
def initFields {σ : Type} (llm : ChatModel) (mapPrompt : String → String)
    (reducePrompt finalPrompt : List Document → String)
    (parse : String → Option σ) (maxTokens : Nat) : MRServiceFields σ :=
  { llm, mapPrompt, reducePrompt, finalPrompt, parse, maxTokens }

/-- Embeds `MapReduceService.summarize` at the service level (stuff.service.ts
lines 123-179): the call first runs `this.initialize(...)`, replacing
the singleton's fields, and then runs the pipeline against those fields;
the returned pair is the service state after the call and the run's
outcome. -/
def serviceSummarize {σ : Type} (self : MRServiceFields σ)
    (llm : ChatModel) (mapPrompt : String → String)
    (reducePrompt finalPrompt : List Document → String)
    (parse : String → Option σ) (maxTokens limit : Nat)
    (contents : List String) : MRServiceFields σ × Except MRError σ :=
  let self := initFields llm mapPrompt reducePrompt finalPrompt parse maxTokens
  (self,
   mapReduceSummarize self.llm self.mapPrompt self.reducePrompt
     self.finalPrompt self.parse self.maxTokens limit contents)

/-- The `Algorithm` enum of `types/index.ts`: `map-reduce`, `stuff`,
`auto`. -/
inductive Algorithm where
  | mapReduce
  | stuff
  | auto
deriving Repr, DecidableEq

/-- The two summarizers the orchestrator can dispatch to. -/
inductive SummarizerChoice where
  | stuff
  | mapReduce
deriving Repr, DecidableEq

/-- Embeds `AiEngineService.MAX_TOKENS` (ai-engine.service.ts line 41): the
stuff/map-reduce threshold. -/
def MAX_TOKENS : Nat := 100000

/-- Embeds the total-token computation of `AiEngineService.summarize`
(ai-engine.service.ts lines 286-292): per-document `getNumTokens`
reduced with `(sum, count) => sum + count` from `0`. -/
def computeTotalTokens (llm : ChatModel) (docs : List Document) : Nat :=
  (docs.map fun doc => llm.getNumTokens doc.pageContent).foldl (· + ·) 0

/-- The algorithm-selection branch of `AiEngineService.summarize`
(ai-engine.service.ts lines 300-304):
`algorithm === 'stuff' || (algorithm === 'auto' && totalTokens < this.MAX_TOKENS)`
selects the stuff summarizer, everything else falls through to
map-reduce. -/
def selectSummarizer (algorithm : Algorithm) (totalTokens maxTokens : Nat) :
    SummarizerChoice :=
  if algorithm = Algorithm.stuff ∨
      (algorithm = Algorithm.auto ∧ totalTokens < maxTokens) then
    .stuff
  else
    .mapReduce

/-- The runtime shape of `taskDetails` in a parsed summarizer response:
each field may be absent. -/
structure TaskDetailsResponse where
  completed : Option String
  inProgress : Option String
  inReview : Option String
deriving Repr, DecidableEq

/-- The runtime shape of a parsed summarizer response as
`structureResponse` accesses it: every field it reads, plus the
`riskBlockersActionsNeeded` and metadata fields that the declared output
schema (`types/output.ts`) names; `none` models an absent (or null)
field of the underlying JSON object. -/
structure ParsedResponse where
  summary : Option String
  riskBlockerActionNeeded : Option String
  riskBlockersActionsNeeded : Option String
  projectName : Option String
  fromDate : Option String
  toDate : Option String
  projectStatus : Option String
  taskDetails : Option TaskDetailsResponse
deriving Repr, DecidableEq

/-- The `replacements` object built by `structureResponse`
(ai-engine.service.ts lines 114-126): caller-supplied metadata is passed
through as-is (possibly absent), while the five report fields are
defaulted to the empty string via `?? ''`. `fromDate`/`toDate` model the
source's `from`/`to` keys. -/
structure Replacements where
  projectName : Option String
  fromDate : Option String
  toDate : Option String
  projectStatus : Option String
  summary : String
  riskBlockerActionNeeded : String
  completed : String
  inProgress : String
  inReview : String
deriving Repr, DecidableEq

/-- The value returned by `structureResponse`: the replacements object
plus the passed-through `docName`. -/
structure StructuredResponse where
  replacements : Replacements
  docName : Option String
deriving Repr, DecidableEq

/-- Embeds `AiEngineService.structureResponse` (ai-engine.service.ts lines
106-129). Optional chaining `response?.field ?? ''` is modelled by
`Option.bind` followed by `Option.getD ""`; a null response is
`response = none`. Note the code reads `response?.summary` and
`response?.riskBlockerActionNeeded`, regardless of what the declared
output schema names those fields. -/
def structureResponse (response : Option ParsedResponse)
    (projectName fromDate toDate projectStatus docName : Option String) :
    StructuredResponse :=
  { replacements :=
      { projectName := projectName
        fromDate := fromDate
        toDate := toDate
        projectStatus := projectStatus
        summary := (response.bind fun r => r.summary).getD ""
        riskBlockerActionNeeded :=
          (response.bind fun r => r.riskBlockerActionNeeded).getD ""
        completed :=
          ((response.bind fun r => r.taskDetails).bind
            fun t => t.completed).getD ""
        inProgress :=
          ((response.bind fun r => r.taskDetails).bind
            fun t => t.inProgress).getD ""
        inReview :=
          ((response.bind fun r => r.taskDetails).bind
            fun t => t.inReview).getD "" }
    docName := docName }

/-- A response object conforming to the declared output schema
`ProjectSummarySchema` of `types/output.ts` (the type
`AiEngineService.structureResponse`'s parameter is declared with): it
has exactly the fields `projectName`, `from`, `to`, `projectStatus`,
`riskBlockersActionsNeeded` and `taskDetails` — in particular it has no
`summary` field and no `riskBlockerActionNeeded` field. -/
def ConformsToDeclaredSchema (r : ParsedResponse) : Prop :=
  r.projectName.isSome ∧ r.fromDate.isSome ∧ r.toDate.isSome ∧
  r.projectStatus.isSome ∧ r.riskBlockersActionsNeeded.isSome ∧
  r.taskDetails.isSome ∧ r.summary = none ∧
  r.riskBlockerActionNeeded = none

/-- The document-splitting step of `MapReduceService.summarize` with the
fallback (src/unnamed/part_016 lines 102-123): try the token-aware
splitter; if its construction/split fails, log the error and re-split
with the character-based recursive splitter, reusing the same
`chunkSize` and `chunkOverlap`. Both langchain splitters are abstracted
as parameters; the returned flag records whether the fallback branch
(and its log line) ran. The step itself is total: no error escapes to
the caller. -/
def splitDocumentsWithFallback
    (tokenSplitter : Nat → Nat → List Document → Except String (List Document))
    (charSplitter : Nat → Nat → List Document → List Document)
    (chunkSize chunkOverlap : Nat) (docs : List Document) :
    List Document × Bool :=
  match tokenSplitter chunkSize chunkOverlap docs with
  | .ok split => (split, false)
  | .error _ => (charSplitter chunkSize chunkOverlap docs, true)

/-- A model whose token counter returns the constant `n` for every text
and whose invocations always answer a fixed summary text; used for
concrete runs of the embedded pipeline. -/
def constModel (n : Nat) : ChatModel :=
  { invoke := fun _ => .ok "reduced", getNumTokens := fun _ => n }

/-- A model that echoes its prompt with a marker appended and counts
tokens by string length; used for concrete runs. -/
def echoModel : ChatModel :=
  { invoke := fun p => .ok (p ++ "!"), getNumTokens := String.length }

/-- A model whose final/any invocation succeeds with content the parser
rejects; token count zero so no collapse round runs. -/
def garbageModel : ChatModel :=
  { invoke := fun _ => .ok "not json", getNumTokens := fun _ => 0 }

/-- A model with per-character token cost 30, so that documents of
different sizes pack into non-trivial groups; invocations answer a fixed
summary text. -/
def scaledModel : ChatModel :=
  { invoke := fun _ => .ok "reduced", getNumTokens := fun s => 30 * s.length }

/-- A concrete reduce/final prompt template for concrete runs. -/
def demoReducePrompt : List Document → String := fun _ => "reduce-prompt"

/-- A concrete parser accepting every content, for concrete runs. -/
def demoParse : String → Option Unit := fun _ => some ()

/-- A concrete parser rejecting every content, for concrete runs. -/
def demoParseFail : String → Option Unit := fun _ => none

/-- A concrete service-field record with threshold `n`, for concrete
runs against the service-level `summarize`. -/
def demoFields (n : Nat) : MRServiceFields Unit :=
  { llm := constModel 60, mapPrompt := id, reducePrompt := demoReducePrompt,
    finalPrompt := demoReducePrompt, parse := demoParse, maxTokens := n }

/-- A token splitter whose construction fails (unsupported
model/encoding), for concrete runs of the fallback path. -/
def failingTokenSplitter : Nat → Nat → List Document → Except String (List Document) :=
  fun _ _ _ => .error "Unknown encoding"

/-- A character splitter that returns its input unchanged, for concrete
runs of the fallback path. -/
def charSplitterId : Nat → Nat → List Document → List Document :=
  fun _ _ docs => docs

/-- A concrete response object with exactly the fields of the declared
output schema of `types/output.ts` (so no `summary` and no
`riskBlockerActionNeeded` field). -/
def conformingResponse : ParsedResponse :=
  { summary := none
    riskBlockerActionNeeded := none
    riskBlockersActionsNeeded := some "risks"
    projectName := some "proj"
    fromDate := some "01 Jan 2025"
    toDate := some "02 Jan 2025"
    projectStatus := some "Green"
    taskDetails := some { completed := some "c", inProgress := some "i",
                          inReview := some "r" } }

/-!
## Helper lemmas
-/

theorem foldl_add_eq_sum (l : List Nat) : ∀ n, l.foldl (· + ·) n = n + l.sum := by
  induction l with
  | nil => intro n; simp
  | cons a t ih =>
    intro n
    rw [List.foldl_cons, ih, List.sum_cons, Nat.add_assoc]

theorem lengthFunction_eq_sum (llm : ChatModel) (documents : List Document) :
    lengthFunction llm documents =
      (documents.map fun doc => llm.getNumTokens doc.pageContent).sum := by
  unfold lengthFunction
  rw [foldl_add_eq_sum, Nat.zero_add]

theorem shouldCollapse_eq_collapse_iff (llm : ChatModel) (maxTokens : Nat)
    (docs : List Document) :
    shouldCollapse llm maxTokens docs = .collapseSummaries ↔
      maxTokens < lengthFunction llm docs := by
  unfold shouldCollapse
  split
  next h => simp [h]
  next h => simp [h]

theorem shouldCollapse_eq_final_iff (llm : ChatModel) (maxTokens : Nat)
    (docs : List Document) :
    shouldCollapse llm maxTokens docs = .generateFinalSummary ↔
      lengthFunction llm docs ≤ maxTokens := by
  unfold shouldCollapse
  split
  next h => simp [Nat.not_le.mpr h]
  next h => simp [Nat.not_lt.mp h]

theorem collapseLoop_of_final (llm : ChatModel) (maxTokens : Nat)
    (reducePrompt : List Document → String) (docs : List Document)
    (h : shouldCollapse llm maxTokens docs = .generateFinalSummary) :
    ∀ fuel, collapseLoop llm maxTokens reducePrompt fuel docs = .ok docs := by
  intro fuel
  cases fuel <;> simp [collapseLoop, h]

theorem collapseLoop_zero_of_collapse (llm : ChatModel) (maxTokens : Nat)
    (reducePrompt : List Document → String) (docs : List Document)
    (h : shouldCollapse llm maxTokens docs = .collapseSummaries) :
    collapseLoop llm maxTokens reducePrompt 0 docs =
      .error .recursionLimitExceeded := by
  simp [collapseLoop, h]

theorem collapseLoop_succ_of_collapse (llm : ChatModel) (maxTokens : Nat)
    (reducePrompt : List Document → String) (docs next : List Document)
    (fuel : Nat)
    (h : shouldCollapse llm maxTokens docs = .collapseSummaries)
    (h2 : collapseSummaries llm maxTokens reducePrompt docs = .ok next) :
    collapseLoop llm maxTokens reducePrompt (fuel + 1) docs =
      collapseLoop llm maxTokens reducePrompt fuel next := by
  simp [collapseLoop, h, h2]

theorem packDocs_join (f : List Document → Nat) (tokenMax : Nat) :
    ∀ (rest cur : List Document),
      (packDocs f tokenMax cur rest).flatten = cur ++ rest := by
  intro rest
  induction rest with
  | nil => intro cur; simp [packDocs]
  | cons d t ih =>
    intro cur
    unfold packDocs
    split
    · simp [ih]
    · simp [ih]

theorem packDocs_mem_ne_nil (f : List Document → Nat) (tokenMax : Nat) :
    ∀ (rest cur : List Document), cur ≠ [] →
      ∀ g ∈ packDocs f tokenMax cur rest, g ≠ [] := by
  intro rest
  induction rest with
  | nil =>
    intro cur hcur g hg
    simp [packDocs] at hg
    simpa [hg] using hcur
  | cons d t ih =>
    intro cur hcur g hg
    unfold packDocs at hg
    split at hg
    · rcases List.mem_cons.mp hg with h | h
      · simpa [h] using hcur
      · exact ih [d] (by simp) g h
    · exact ih (cur ++ [d]) (by simp) g hg

theorem packDocs_mem_budget (f : List Document → Nat) (tokenMax : Nat) :
    ∀ (rest cur : List Document), (1 < cur.length → f cur ≤ tokenMax) →
      ∀ g ∈ packDocs f tokenMax cur rest, 1 < g.length → f g ≤ tokenMax := by
  intro rest
  induction rest with
  | nil =>
    intro cur hcur g hg
    simp [packDocs] at hg
    simpa [hg] using hcur
  | cons d t ih =>
    intro cur hcur g hg
    unfold packDocs at hg
    split at hg
    · rcases List.mem_cons.mp hg with h | h
      · simpa [h] using hcur
      · exact ih [d] (by simp) g h
    next hle =>
      exact ih (cur ++ [d]) (fun _ => Nat.le_of_not_lt hle) g hg

theorem splitListOfDocs_join (f : List Document → Nat) (tokenMax : Nat)
    (docs : List Document) :
    (splitListOfDocs f tokenMax docs).flatten = docs := by
  cases docs with
  | nil => simp [splitListOfDocs]
  | cons d rest => simp [splitListOfDocs, packDocs_join]

theorem splitListOfDocs_mem_ne_nil (f : List Document → Nat) (tokenMax : Nat)
    (docs : List Document) :
    ∀ g ∈ splitListOfDocs f tokenMax docs, g ≠ [] := by
  cases docs with
  | nil => simp [splitListOfDocs]
  | cons d rest =>
    exact packDocs_mem_ne_nil f tokenMax rest [d] (by simp)

theorem splitListOfDocs_mem_budget (f : List Document → Nat) (tokenMax : Nat)
    (docs : List Document) :
    ∀ g ∈ splitListOfDocs f tokenMax docs, 1 < g.length → f g ≤ tokenMax := by
  cases docs with
  | nil => simp [splitListOfDocs]
  | cons d rest =>
    exact packDocs_mem_budget f tokenMax rest [d] (by simp)

theorem collapseDocs_singleton (reduceFn : List Document → Except String String)
    (d : Document) : collapseDocs reduceFn [d] = .ok d := rfl

theorem collapseDocs_multi (reduceFn : List Document → Except String String)
    (g : List Document) (hg : 1 < g.length) :
    collapseDocs reduceFn g =
      (reduceFn g).map fun content => { pageContent := content } := by
  match g, hg with
  | a :: b :: t, _ => rfl

theorem except_ok_bind {ε α β : Type} (a : α) (k : α → Except ε β) :
    (Except.ok a >>= k) = k a := rfl

theorem except_error_bind {ε α β : Type} (e : ε) (k : α → Except ε β) :
    ((Except.error e : Except ε α) >>= k) = .error e := rfl

theorem except_pure_eq_ok {ε α : Type} (a : α) :
    (pure a : Except ε α) = .ok a := rfl

theorem exceptMapM_ok_length {α β : Type} (f : α → Except String β) :
    ∀ (l : List α) (res : List β), l.mapM f = .ok res → res.length = l.length := by
  intro l
  induction l with
  | nil =>
    intro res h
    simp only [List.mapM_nil, except_pure_eq_ok] at h
    cases h
    rfl
  | cons a t ih =>
    intro res h
    rw [List.mapM_cons] at h
    cases hfa : f a with
    | error e =>
      rw [hfa, except_error_bind] at h
      cases h
    | ok b =>
      rw [hfa, except_ok_bind] at h
      cases hmt : t.mapM f with
      | error e =>
        rw [hmt, except_error_bind] at h
        cases h
      | ok bs =>
        rw [hmt, except_ok_bind, except_pure_eq_ok] at h
        cases h
        simp [ih bs hmt]

theorem exceptMapM_ok_of_forall {α β : Type} (f : α → Except String β)
    (g : α → β) : ∀ (l : List α), (∀ a, f a = .ok (g a)) →
      l.mapM f = .ok (l.map g) := by
  intro l hf
  induction l with
  | nil => rfl
  | cons a t ih =>
    rw [List.mapM_cons, hf a, except_ok_bind, ih, except_ok_bind,
      except_pure_eq_ok, List.map_cons]

theorem foldl_summariesReducer (updates : List (List String)) :
    ∀ state, updates.foldl summariesReducer state = state ++ updates.flatten := by
  induction updates with
  | nil => intro st; simp
  | cons u t ih =>
    intro st
    simp [List.foldl_cons, summariesReducer, ih]

theorem flatten_map_singleton {α β : Type} (g : α → β) (l : List α) :
    (l.map fun a => [g a]).flatten = l.map g := by
  induction l with
  | nil => simp
  | cons a t ih => simp [ih]

theorem mapReduceSummarize_mapM_error {σ : Type} (llm : ChatModel)
    (mapPrompt : String → String)
    (reducePrompt finalPrompt : List Document → String)
    (parse : String → Option σ) (maxTokens limit : Nat)
    (contents : List String) (msg : String)
    (h1 : contents.mapM (generateSummary llm mapPrompt) = .error msg) :
    mapReduceSummarize llm mapPrompt reducePrompt finalPrompt parse maxTokens
      limit contents = .error (.modelInvocation msg) := by
  unfold mapReduceSummarize
  split
  next msg2 heq => rw [h1] at heq; cases heq; rfl
  next summaries heq => rw [h1] at heq; cases heq

theorem mapReduceSummarize_loop_error {σ : Type} (llm : ChatModel)
    (mapPrompt : String → String)
    (reducePrompt finalPrompt : List Document → String)
    (parse : String → Option σ) (maxTokens limit : Nat)
    (contents summaries : List String) (e : MRError)
    (h1 : contents.mapM (generateSummary llm mapPrompt) = .ok summaries)
    (h2 : collapseLoop llm maxTokens reducePrompt limit
        (collectSummaries summaries) = .error e) :
    mapReduceSummarize llm mapPrompt reducePrompt finalPrompt parse maxTokens
      limit contents = .error e := by
  unfold mapReduceSummarize
  split
  next msg heq => rw [h1] at heq; cases heq
  next summaries2 heq =>
    rw [h1] at heq; cases heq
    split
    next e2 heq2 => rw [h2] at heq2; cases heq2; rfl
    next docs heq2 => rw [h2] at heq2; cases heq2

theorem mapReduceSummarize_final {σ : Type} (llm : ChatModel)
    (mapPrompt : String → String)
    (reducePrompt finalPrompt : List Document → String)
    (parse : String → Option σ) (maxTokens limit : Nat)
    (contents summaries : List String) (docs : List Document)
    (content : String)
    (h1 : contents.mapM (generateSummary llm mapPrompt) = .ok summaries)
    (h2 : collapseLoop llm maxTokens reducePrompt limit
        (collectSummaries summaries) = .ok docs)
    (h3 : llm.invoke (finalPrompt docs) = .ok content) :
    mapReduceSummarize llm mapPrompt reducePrompt finalPrompt parse maxTokens
      limit contents =
      match parse content with
      | none => .error .failedToGenerateFinalSummary
      | some obj => .ok obj := by
  unfold mapReduceSummarize
  split
  next msg heq => rw [h1] at heq; cases heq
  next summaries2 heq =>
    rw [h1] at heq; cases heq
    split
    next e2 heq2 => rw [h2] at heq2; cases heq2
    next docs2 heq2 =>
      rw [h2] at heq2; cases heq2
      split
      next msg heq3 => rw [h3] at heq3; cases heq3
      next content2 heq3 => rw [h3] at heq3; cases heq3; rfl

/-!
## Claim theorems
-/

/-- C1: for every collapsed-summaries set, `shouldCollapse` computes the
total token count as the sum of the per-document token counts (no
deduplication or windowing), routes to `collapseSummaries` exactly when
that sum strictly exceeds the configured max-token threshold and to
`generateFinalSummary` otherwise, and the decision is re-evaluated after
every collapse round: a `generateFinalSummary` decision ends the loop at
any remaining fuel, and after a successful collapse round the loop
continues exactly as the loop restarted on the new set (where the first
thing consulted is again `shouldCollapse`). -/
theorem shouldCollapse_sums_and_recurs (llm : ChatModel) (maxTokens : Nat)
    (reducePrompt : List Document → String) (docs : List Document)
    (fuel : Nat) :
    lengthFunction llm docs =
      (docs.map fun d => llm.getNumTokens d.pageContent).sum
    ∧ (shouldCollapse llm maxTokens docs = .collapseSummaries ↔
        maxTokens < lengthFunction llm docs)
    ∧ (shouldCollapse llm maxTokens docs = .generateFinalSummary ↔
        lengthFunction llm docs ≤ maxTokens)
    ∧ (shouldCollapse llm maxTokens docs = .generateFinalSummary →
        collapseLoop llm maxTokens reducePrompt fuel docs = .ok docs)
    ∧ (∀ next, shouldCollapse llm maxTokens docs = .collapseSummaries →
        collapseSummaries llm maxTokens reducePrompt docs = .ok next →
        collapseLoop llm maxTokens reducePrompt (fuel + 1) docs =
          collapseLoop llm maxTokens reducePrompt fuel next) := by
  refine ⟨lengthFunction_eq_sum llm docs,
    shouldCollapse_eq_collapse_iff llm maxTokens docs,
    shouldCollapse_eq_final_iff llm maxTokens docs,
    fun h => collapseLoop_of_final llm maxTokens reducePrompt docs h fuel,
    fun next h h2 =>
      collapseLoop_succ_of_collapse llm maxTokens reducePrompt docs next fuel h h2⟩

/-- Witness for C1 at a concrete input: summaries of 30, 30 and 60
tokens against a 100-token threshold trigger a collapse round (sum 120
exceeds 100); the round packs the first two into one reduced document
and passes the third through, and the loop continues on that new set. -/
theorem shouldCollapse_sums_and_recurs_witness :
    shouldCollapse scaledModel 100
        [{ pageContent := "x" }, { pageContent := "y" }, { pageContent := "zz" }] =
        .collapseSummaries
    ∧ collapseSummaries scaledModel 100 demoReducePrompt
        [{ pageContent := "x" }, { pageContent := "y" }, { pageContent := "zz" }] =
        .ok [{ pageContent := "reduced" }, { pageContent := "zz" }]
    ∧ collapseLoop scaledModel 100 demoReducePrompt 4
        [{ pageContent := "x" }, { pageContent := "y" }, { pageContent := "zz" }] =
        collapseLoop scaledModel 100 demoReducePrompt 3
          [{ pageContent := "reduced" }, { pageContent := "zz" }] := by
  refine ⟨rfl, rfl, ?_⟩
  exact (shouldCollapse_sums_and_recurs scaledModel 100 demoReducePrompt
    [{ pageContent := "x" }, { pageContent := "y" }, { pageContent := "zz" }] 3).2.2.2.2
    [{ pageContent := "reduced" }, { pageContent := "zz" }] rfl rfl

/-- C5: the algorithm selector chooses the stuff summarizer exactly when
the requested mode is `stuff`, or the mode is `auto` and the total token
count is strictly below the threshold; in every other case (explicit
`map-reduce`, or `auto` at/above threshold) it chooses map-reduce; mode
`stuff` selects stuff regardless of the total; and the total token count
it branches on is the sum of the per-document counts. -/
theorem selectSummarizer_correct (llm : ChatModel) (docsIn : List Document)
    (algorithm : Algorithm) (totalTokens maxTokens : Nat) :
    (selectSummarizer algorithm totalTokens maxTokens = .stuff ↔
      algorithm = .stuff ∨ (algorithm = .auto ∧ totalTokens < maxTokens))
    ∧ (selectSummarizer algorithm totalTokens maxTokens = .mapReduce ↔
      algorithm = .mapReduce ∨ (algorithm = .auto ∧ maxTokens ≤ totalTokens))
    ∧ selectSummarizer .stuff totalTokens maxTokens = .stuff
    ∧ selectSummarizer .mapReduce totalTokens maxTokens = .mapReduce
    ∧ computeTotalTokens llm docsIn =
        (docsIn.map fun doc => llm.getNumTokens doc.pageContent).sum := by
  refine ⟨?_, ?_, by simp [selectSummarizer], by simp [selectSummarizer], ?_⟩
  · cases algorithm with
    | stuff => simp [selectSummarizer]
    | mapReduce => simp [selectSummarizer]
    | auto =>
      by_cases hlt : totalTokens < maxTokens
      · simp [selectSummarizer, hlt]
      · simp [selectSummarizer, hlt]
  · cases algorithm with
    | stuff => simp [selectSummarizer]
    | mapReduce => simp [selectSummarizer]
    | auto =>
      by_cases hlt : totalTokens < maxTokens
      · simp [selectSummarizer, hlt, Nat.not_le.mpr hlt]
      · simp [selectSummarizer, hlt, Nat.le_of_not_lt hlt]
  · unfold computeTotalTokens
    rw [foldl_add_eq_sum, Nat.zero_add]

/-- C2: every collapse round packs the current collapsed-summaries set
into groups by prefix-greedy packing — concatenating the groups in order
returns exactly the input (order preserved within and across groups),
every group is nonempty, and every group with more than one member stays
within the max-token budget; the round's result is exactly the per-group
results (the new set wholesale replaces the old one, one output document
per group); a one-document group passes through unreduced with no model
call, while a group with more than one member is produced by exactly one
reduce model call over the group. -/
theorem collapseSummaries_greedy_packing (llm : ChatModel) (maxTokens : Nat)
    (reducePrompt : List Document → String) (docs : List Document) :
    (splitListOfDocs (lengthFunction llm) maxTokens docs).flatten = docs
    ∧ (∀ g ∈ splitListOfDocs (lengthFunction llm) maxTokens docs, g ≠ [])
    ∧ (∀ g ∈ splitListOfDocs (lengthFunction llm) maxTokens docs,
        1 < g.length → lengthFunction llm g ≤ maxTokens)
    ∧ collapseSummaries llm maxTokens reducePrompt docs =
        (splitListOfDocs (lengthFunction llm) maxTokens docs).mapM
          (collapseDocs (reduceCall llm reducePrompt))
    ∧ (∀ d, collapseDocs (reduceCall llm reducePrompt) [d] = .ok d)
    ∧ (∀ g, 1 < g.length →
        collapseDocs (reduceCall llm reducePrompt) g =
          (reduceCall llm reducePrompt g).map
            fun content => { pageContent := content })
    ∧ (∀ results,
        collapseSummaries llm maxTokens reducePrompt docs = .ok results →
        results.length =
          (splitListOfDocs (lengthFunction llm) maxTokens docs).length) := by
  refine ⟨splitListOfDocs_join (lengthFunction llm) maxTokens docs,
    splitListOfDocs_mem_ne_nil (lengthFunction llm) maxTokens docs,
    splitListOfDocs_mem_budget (lengthFunction llm) maxTokens docs,
    rfl,
    fun d => collapseDocs_singleton (reduceCall llm reducePrompt) d,
    fun g hg => collapseDocs_multi (reduceCall llm reducePrompt) g hg,
    fun results h =>
      exceptMapM_ok_length (collapseDocs (reduceCall llm reducePrompt)) _ results h⟩

/-- Witness for C2 at a concrete input: summaries of 30, 30 and 60
tokens against a 100-token threshold pack into the groups
`[[30, 30], [60]]`; the two-member group stays within budget, the
singleton passes through unreduced, and the round's result has exactly
one document per group. -/
theorem collapseSummaries_greedy_packing_witness :
    lengthFunction scaledModel [{ pageContent := "x" }, { pageContent := "y" }] ≤ 100
    ∧ collapseDocs (reduceCall scaledModel demoReducePrompt)
        [{ pageContent := "zz" }] = .ok { pageContent := "zz" }
    ∧ ([{ pageContent := "reduced" }, { pageContent := "zz" }] : List Document).length =
        (splitListOfDocs (lengthFunction scaledModel) 100
          [{ pageContent := "x" }, { pageContent := "y" },
           { pageContent := "zz" }]).length := by
  refine ⟨?_, ?_, ?_⟩
  · exact (collapseSummaries_greedy_packing scaledModel 100 demoReducePrompt
      [{ pageContent := "x" }, { pageContent := "y" }, { pageContent := "zz" }]).2.2.1
      [{ pageContent := "x" }, { pageContent := "y" }] (by decide) (by decide)
  · exact (collapseSummaries_greedy_packing scaledModel 100 demoReducePrompt
      [{ pageContent := "zz" }]).2.2.2.2.1 { pageContent := "zz" }
  · exact (collapseSummaries_greedy_packing scaledModel 100 demoReducePrompt
      [{ pageContent := "x" }, { pageContent := "y" }, { pageContent := "zz" }]).2.2.2.2.2.2
      [{ pageContent := "reduced" }, { pageContent := "zz" }] rfl

/-- C3 counterexample: `shouldCollapse` has no one-document guard — a
single 150-token document against a 100-token threshold routes to
another collapse round, not to `generateFinalSummary`; and even with the
threshold (100) at least the largest individual summary count (60),
three 60-token summaries pack into three singleton groups every round,
so the collapse loop ends in the recursion-limit error rather than ever
producing a set within budget or a single oversized document. -/
theorem shouldCollapse_singleton_counterexample :
    shouldCollapse (constModel 150) 100 [{ pageContent := "s" }] ≠
      .generateFinalSummary
    ∧ shouldCollapse (constModel 150) 100 [{ pageContent := "s" }] =
      .collapseSummaries
    ∧ (constModel 60).getNumTokens "a" ≤ 100
    ∧ collapseLoop (constModel 60) 100 demoReducePrompt recursionLimit
        [{ pageContent := "a" }, { pageContent := "b" }, { pageContent := "c" }] =
        .error .recursionLimitExceeded := by
  exact ⟨by decide, rfl, by decide, rfl⟩

/-- C3 (amended): a single over-budget document is not treated as
non-collapsible — `shouldCollapse` routes it to another collapse round;
that round returns the singleton unchanged, so for every fuel budget the
loop ends in the recursion-limit error instead of proceeding to the
final summary; the loop is nevertheless always bounded: whenever it
completes without an error, the resulting set's total token count is at
most the threshold. -/
theorem collapseLoop_singleton_oversized (llm : ChatModel) (maxTokens : Nat)
    (reducePrompt : List Document → String) :
    (∀ d : Document, maxTokens < llm.getNumTokens d.pageContent →
      shouldCollapse llm maxTokens [d] = .collapseSummaries
      ∧ collapseSummaries llm maxTokens reducePrompt [d] = .ok [d]
      ∧ ∀ fuel, collapseLoop llm maxTokens reducePrompt fuel [d] =
          .error .recursionLimitExceeded)
    ∧ (∀ fuel docs result,
        collapseLoop llm maxTokens reducePrompt fuel docs = .ok result →
        lengthFunction llm result ≤ maxTokens) := by
  constructor
  · intro d hd
    have hlen : lengthFunction llm [d] = llm.getNumTokens d.pageContent := by
      simp [lengthFunction]
    have hC : shouldCollapse llm maxTokens [d] = .collapseSummaries := by
      rw [shouldCollapse_eq_collapse_iff, hlen]
      exact hd
    have hS : collapseSummaries llm maxTokens reducePrompt [d] = .ok [d] := by
      show ((packDocs (lengthFunction llm) maxTokens [d] []).mapM
        (collapseDocs (reduceCall llm reducePrompt))) = .ok [d]
      simp [packDocs, List.mapM_cons, List.mapM_nil, collapseDocs_singleton,
        except_ok_bind, except_pure_eq_ok]
      rfl
    refine ⟨hC, hS, ?_⟩
    intro fuel
    induction fuel with
    | zero => simp [collapseLoop, hC]
    | succ n ih => simp [collapseLoop, hC, hS, ih]
  · intro fuel
    induction fuel with
    | zero =>
      intro docs result h
      cases hd : shouldCollapse llm maxTokens docs with
      | generateFinalSummary =>
        simp [collapseLoop, hd] at h
        subst h
        exact (shouldCollapse_eq_final_iff llm maxTokens docs).mp hd
      | collapseSummaries => simp [collapseLoop, hd] at h
    | succ n ih =>
      intro docs result h
      cases hd : shouldCollapse llm maxTokens docs with
      | generateFinalSummary =>
        simp [collapseLoop, hd] at h
        subst h
        exact (shouldCollapse_eq_final_iff llm maxTokens docs).mp hd
      | collapseSummaries =>
        cases hs : collapseSummaries llm maxTokens reducePrompt docs with
        | error msg => simp [collapseLoop, hd, hs] at h
        | ok next =>
          simp [collapseLoop, hd, hs] at h
          exact ih next result h

/-- Witness for C3 (amended) at a concrete input: a single 150-token
document against a 100-token threshold drives the loop into the
recursion-limit error at the source's limit of 10, and a successful run
of the loop ends within budget. -/
theorem collapseLoop_singleton_oversized_witness :
    100 < (constModel 150).getNumTokens "s"
    ∧ collapseLoop (constModel 150) 100 demoReducePrompt recursionLimit
        [{ pageContent := "s" }] = .error .recursionLimitExceeded
    ∧ lengthFunction (constModel 60) [{ pageContent := "a" }] ≤ 100 := by
  refine ⟨by decide, ?_, ?_⟩
  · exact ((collapseLoop_singleton_oversized (constModel 150) 100
      demoReducePrompt).1 { pageContent := "s" } (by decide)).2.2 recursionLimit
  · exact (collapseLoop_singleton_oversized (constModel 60) 100
      demoReducePrompt).2 0 [{ pageContent := "a" }] [{ pageContent := "a" }] rfl

/-- C4: the run bounds the collapse rounds by the recursion limit — once
the fuel is exhausted while the decision still demands a collapse, the
loop aborts with the explicit recursion-limit error; an erroring loop
aborts the whole summarize run with that same explicit error (no silent
missing result); and the source's limit of 10 is actually exceeded on a
concrete pathological configuration (three 60-token summaries against a
100-token threshold), which aborts the run fatally rather than looping
forever. -/
theorem mapReduce_recursion_limit (σ : Type) (llm : ChatModel)
    (mapPrompt : String → String)
    (reducePrompt finalPrompt : List Document → String)
    (parse : String → Option σ) (maxTokens limit : Nat)
    (contents summaries : List String) (e : MRError) :
    (∀ docs, shouldCollapse llm maxTokens docs = .collapseSummaries →
      collapseLoop llm maxTokens reducePrompt 0 docs =
        .error .recursionLimitExceeded)
    ∧ (contents.mapM (generateSummary llm mapPrompt) = .ok summaries →
        collapseLoop llm maxTokens reducePrompt limit
          (collectSummaries summaries) = .error e →
        mapReduceSummarize llm mapPrompt reducePrompt finalPrompt parse
          maxTokens limit contents = .error e)
    ∧ mapReduceSummarize (constModel 60) id demoReducePrompt demoReducePrompt
        demoParse 100 recursionLimit ["a", "b", "c"] =
        .error .recursionLimitExceeded := by
  exact ⟨fun docs h =>
    collapseLoop_zero_of_collapse llm maxTokens reducePrompt docs h,
    fun h1 h2 => mapReduceSummarize_loop_error llm mapPrompt reducePrompt
      finalPrompt parse maxTokens limit contents summaries e h1 h2, rfl⟩

/-- Witness for C4 at a concrete input: exhausted fuel with the decision
still demanding a collapse yields the recursion-limit error, and the
run-level summarize surfaces a loop error as its own explicit error. -/
theorem mapReduce_recursion_limit_witness :
    collapseLoop (constModel 150) 100 demoReducePrompt 0
        [{ pageContent := "s" }] = .error .recursionLimitExceeded
    ∧ mapReduceSummarize (constModel 150) id demoReducePrompt demoReducePrompt
        demoParse 100 0 ["s"] = .error .recursionLimitExceeded := by
  have h := mapReduce_recursion_limit Unit (constModel 150) id demoReducePrompt
    demoReducePrompt demoParse 100 0 ["s"] ["reduced"] .recursionLimitExceeded
  exact ⟨h.1 [{ pageContent := "s" }] rfl, h.2.1 rfl rfl⟩

/-- C6: when every fanned-out map task succeeds, the joined map phase
produces exactly one summary per input chunk: for any completion order
(any permutation of the chunk contents) the summaries list is the map
outputs in that order, its length equals the chunk count, and as a
multiset it equals the per-chunk map outputs independent of order; the
`summaries` channel only ever grows (each fold step appends, never
removes); and `collectSummaries` converts the list wholesale into the
collapsed-summaries document set. -/
theorem mapPhase_complete (llm : ChatModel) (mapPrompt : String → String)
    (f : String → String) (contents order : List String)
    (hok : ∀ c, llm.invoke (mapPrompt c) = .ok (f c))
    (hperm : order.Perm contents) :
    runMapPhase llm mapPrompt order = .ok (order.map f)
    ∧ (order.map f).length = contents.length
    ∧ (order.map f).Perm (contents.map f)
    ∧ (∀ (updates : List (List String)) (state : List String), ∃ tail,
        updates.foldl summariesReducer state = state ++ tail)
    ∧ (collectSummaries (order.map f)).map Document.pageContent = order.map f := by
  refine ⟨?_, ?_, hperm.map f, ?_, ?_⟩
  · have hall : ∀ a, generateSummaryUpdate llm mapPrompt a = .ok [f a] := by
      intro a
      unfold generateSummaryUpdate generateSummary
      rw [hok a]
      rfl
    unfold runMapPhase
    rw [exceptMapM_ok_of_forall (generateSummaryUpdate llm mapPrompt)
      (fun c => [f c]) order hall]
    show Except.ok ((order.map fun c => [f c]).foldl summariesReducer []) =
      Except.ok (order.map f)
    rw [foldl_summariesReducer, List.nil_append, flatten_map_singleton]
  · rw [List.length_map, hperm.length_eq]
  · intro updates state
    exact ⟨updates.flatten, foldl_summariesReducer updates state⟩
  · simp [collectSummaries, List.map_map]

/-- Witness for C6 at a concrete input: two chunks completing in reverse
order still yield one summary per chunk, equal as a multiset to the
in-order map outputs. -/
theorem mapPhase_complete_witness :
    runMapPhase echoModel id ["b", "a"] = .ok ["b!", "a!"]
    ∧ (["b", "a"].map fun c => c ++ "!").Perm
        (["a", "b"].map fun c => c ++ "!") := by
  have h := mapPhase_complete echoModel id (fun c => c ++ "!") ["a", "b"]
    ["b", "a"] (fun c => rfl) (by decide)
  exact ⟨h.1, h.2.2.1⟩

/-- C7: when the final model call itself succeeds, an unparseable
content makes the whole run fail with the explicit
`Failed to generate final summary` error — an error distinct from every
model-invocation failure, with no partial structured object returned —
while a parseable content makes the parsed object the run's sole
output. -/
theorem finalSummary_parse_failure (σ : Type) (llm : ChatModel)
    (mapPrompt : String → String)
    (reducePrompt finalPrompt : List Document → String)
    (parse : String → Option σ) (maxTokens limit : Nat)
    (contents summaries : List String) (docs : List Document)
    (content : String)
    (h1 : contents.mapM (generateSummary llm mapPrompt) = .ok summaries)
    (h2 : collapseLoop llm maxTokens reducePrompt limit
        (collectSummaries summaries) = .ok docs)
    (h3 : llm.invoke (finalPrompt docs) = .ok content) :
    (parse content = none →
      mapReduceSummarize llm mapPrompt reducePrompt finalPrompt parse
        maxTokens limit contents = .error .failedToGenerateFinalSummary)
    ∧ (∀ obj, parse content = some obj →
      mapReduceSummarize llm mapPrompt reducePrompt finalPrompt parse
        maxTokens limit contents = .ok obj)
    ∧ (∀ msg,
        (MRError.failedToGenerateFinalSummary : MRError) ≠ .modelInvocation msg) := by
  refine ⟨fun hp => ?_, fun obj hp => ?_, fun msg hmsg => ?_⟩
  · rw [mapReduceSummarize_final llm mapPrompt reducePrompt finalPrompt parse
      maxTokens limit contents summaries docs content h1 h2 h3, hp]
  · rw [mapReduceSummarize_final llm mapPrompt reducePrompt finalPrompt parse
      maxTokens limit contents summaries docs content h1 h2 h3, hp]
  · cases hmsg

/-- Witness for C7 at a concrete input: a final call that succeeds with
unusable content fails the run with the explicit final-summary error,
which differs from a model-invocation error. -/
theorem finalSummary_parse_failure_witness :
    mapReduceSummarize garbageModel id demoReducePrompt demoReducePrompt
        demoParseFail 100 recursionLimit ["c"] =
        .error .failedToGenerateFinalSummary
    ∧ (MRError.failedToGenerateFinalSummary : MRError) ≠
        .modelInvocation "boom" := by
  have h := finalSummary_parse_failure Unit garbageModel id demoReducePrompt
    demoReducePrompt demoParseFail 100 recursionLimit ["c"] ["not json"]
    [{ pageContent := "not json" }] "not json" rfl rfl rfl
  exact ⟨h.1 rfl, h.2.2 "boom"⟩

/-- C8: if the token-aware splitter fails, the splitting step falls back
to the character-based splitter with the same `chunkSize` and
`chunkOverlap` and records the logged fallback, surfacing no error to
the caller; if the token-aware splitter succeeds, its output is used
unchanged with no fallback. -/
theorem splitter_fallback
    (tokenSplitter : Nat → Nat → List Document → Except String (List Document))
    (charSplitter : Nat → Nat → List Document → List Document)
    (chunkSize chunkOverlap : Nat) (docs : List Document) :
    (∀ msg, tokenSplitter chunkSize chunkOverlap docs = .error msg →
      splitDocumentsWithFallback tokenSplitter charSplitter chunkSize
        chunkOverlap docs = (charSplitter chunkSize chunkOverlap docs, true))
    ∧ (∀ s, tokenSplitter chunkSize chunkOverlap docs = .ok s →
      splitDocumentsWithFallback tokenSplitter charSplitter chunkSize
        chunkOverlap docs = (s, false)) := by
  constructor
  · intro msg h
    simp [splitDocumentsWithFallback, h]
  · intro s h
    simp [splitDocumentsWithFallback, h]

/-- Witness for C8 at a concrete input: a splitter whose construction
fails with an unsupported-encoding error falls back to the character
splitter on the same arguments and logs it. -/
theorem splitter_fallback_witness :
    splitDocumentsWithFallback failingTokenSplitter charSplitterId 1000 0
        [{ pageContent := "text" }] = ([{ pageContent := "text" }], true) :=
  (splitter_fallback failingTokenSplitter charSplitterId 1000 0
    [{ pageContent := "text" }]).1 "Unknown encoding" rfl

/-- C9 counterexample: `summarize` does NOT leave the service instance's
fields unchanged — a service whose `maxTokens` field is 7 has it
overwritten to 5 by a summarize call with threshold 5 (via
`this.initialize(...)`), an observable change of singleton-scoped,
process-wide state. -/
theorem serviceState_overwritten_counterexample :
    (demoFields 7).maxTokens = 7
    ∧ (serviceSummarize (demoFields 7) (constModel 60) id demoReducePrompt
        demoReducePrompt demoParse 5 recursionLimit []).fst.maxTokens = 5
    ∧ (serviceSummarize (demoFields 7) (constModel 60) id demoReducePrompt
        demoReducePrompt demoParse 5 recursionLimit []).fst.maxTokens ≠
        (demoFields 7).maxTokens := by
  exact ⟨rfl, rfl, by decide⟩

/-- C9 (amended): every `summarize` call overwrites all instance fields
of the `MapReduceService` singleton with that call's arguments (they are
process-wide mutable state that a concurrently running invocation could
observe changing), while the pipeline state and the run's outcome are
functions of the call's arguments alone, i.e. invocation-scoped. -/
theorem serviceSummarize_overwrites_fields (σ : Type)
    (self : MRServiceFields σ) (llm : ChatModel)
    (mapPrompt : String → String)
    (reducePrompt finalPrompt : List Document → String)
    (parse : String → Option σ) (maxTokens limit : Nat)
    (contents : List String) :
    (serviceSummarize self llm mapPrompt reducePrompt finalPrompt parse
        maxTokens limit contents).fst =
      initFields llm mapPrompt reducePrompt finalPrompt parse maxTokens
    ∧ (serviceSummarize self llm mapPrompt reducePrompt finalPrompt parse
        maxTokens limit contents).fst.maxTokens = maxTokens
    ∧ (serviceSummarize self llm mapPrompt reducePrompt finalPrompt parse
        maxTokens limit contents).snd =
      mapReduceSummarize llm mapPrompt reducePrompt finalPrompt parse
        maxTokens limit contents :=
  ⟨rfl, rfl, rfl⟩

/-- C10: `structureResponse` is total over parsed responses, including a
null response, always producing a replacements object with all report
keys and the empty string for every absent field; in particular, because
it reads `riskBlockerActionNeeded` while the declared output schema
names that field `riskBlockersActionsNeeded`, every response conforming
to the declared schema yields an empty string for the risk/blocker entry
(and likewise for `summary`, also absent from the declared schema);
caller metadata and `docName` pass through unchanged. -/
theorem structureResponse_total_defaults (response : Option ParsedResponse)
    (r : ParsedResponse)
    (projectName fromDate toDate projectStatus docName : Option String) :
    structureResponse none projectName fromDate toDate projectStatus docName =
      { replacements :=
          { projectName := projectName, fromDate := fromDate,
            toDate := toDate, projectStatus := projectStatus,
            summary := "", riskBlockerActionNeeded := "",
            completed := "", inProgress := "", inReview := "" },
        docName := docName }
    ∧ (r.taskDetails = none →
        (structureResponse (some r) projectName fromDate toDate projectStatus
          docName).replacements.completed = ""
        ∧ (structureResponse (some r) projectName fromDate toDate
            projectStatus docName).replacements.inProgress = ""
        ∧ (structureResponse (some r) projectName fromDate toDate
            projectStatus docName).replacements.inReview = "")
    ∧ (ConformsToDeclaredSchema r →
        (structureResponse (some r) projectName fromDate toDate projectStatus
          docName).replacements.riskBlockerActionNeeded = ""
        ∧ (structureResponse (some r) projectName fromDate toDate
            projectStatus docName).replacements.summary = "")
    ∧ (structureResponse response projectName fromDate toDate projectStatus
        docName).docName = docName
    ∧ (structureResponse response projectName fromDate toDate projectStatus
        docName).replacements.projectName = projectName := by
  refine ⟨rfl, fun h => ⟨?_, ?_, ?_⟩, fun h => ⟨?_, ?_⟩, rfl, rfl⟩
  · simp [structureResponse, h]
  · simp [structureResponse, h]
  · simp [structureResponse, h]
  · simp [structureResponse, h.2.2.2.2.2.2.2]
  · simp [structureResponse, h.2.2.2.2.2.2.1]

/-- Witness for C10 at a concrete input: a response with exactly the
declared schema's fields (risk text under `riskBlockersActionsNeeded`)
yields an empty risk/blocker entry and an empty summary in the published
replacements. -/
theorem structureResponse_total_defaults_witness :
    (structureResponse (some conformingResponse) (some "proj")
        (some "01 Jan 2025") (some "02 Jan 2025") (some "Green")
        (some "doc")).replacements.riskBlockerActionNeeded = ""
    ∧ (structureResponse (some conformingResponse) (some "proj")
        (some "01 Jan 2025") (some "02 Jan 2025") (some "Green")
        (some "doc")).replacements.summary = "" := by
  exact (structureResponse_total_defaults (some conformingResponse)
    conformingResponse (some "proj") (some "01 Jan 2025")
    (some "02 Jan 2025") (some "Green") (some "doc")).2.2.1
    ⟨rfl, rfl, rfl, rfl, rfl, rfl, rfl, rfl⟩

end AiSummary
